import Mathlib

/-!
Shallow embedding of `pwa_launcher.get_chromium` (files
`find_chromium.py` and `__init__.py`): the platform probe, the
detection primitive, the three-tier resolver `get_chromium_install`,
and the diagnostic `get_chromium_info`.

Ambient state is passed explicitly: the OS identity
(`platform.system()`), the environment (`os.environ`), the user's home
directory (`Path.home()`), and the filesystem (a map from path strings
to what occupies them).  The portable installer
(`install_chromium.py`, an external collaborator of the core) is
passed as a record of its two operations.
-/

namespace PwaLauncher

/-- `platform.system()` outcomes distinguished by the probe. -/
inductive OS
  | windows
  | darwin
  | linux
  | other
deriving DecidableEq, Repr

/-- `os.environ`: a partial map from variable names to values. -/
def Env : Type := String → Option String

/-- `os.environ.get(key, default)`. -/
def envGet (env : Env) (key dflt : String) : String :=
  (env key).getD dflt

/-- What occupies a filesystem path.  `brokenLink` is a symlink whose
target does not resolve: `Path.exists()` (which follows symlinks)
is false for it, as is `Path.is_file()`. -/
inductive FsEntry
  | file
  | dir
  | absent
  | brokenLink
deriving DecidableEq, Repr

/-- Filesystem state: what each path string resolves to. -/
def Fs : Type := String → FsEntry

/-- `Path(p).exists()`: true for a regular file or a directory
(symlinks already resolved by `FsEntry`). -/
def path_exists (fs : Fs) (p : String) : Bool :=
  match fs p with
  | .file => true
  | .dir => true
  | .absent => false
  | .brokenLink => false

/-- `Path(p).is_file()`: true only for a regular file. -/
def path_is_file (fs : Fs) (p : String) : Bool :=
  match fs p with
  | .file => true
  | _ => false

/-- `pathlib` joining of a base path string with plain-name parts,
using the platform separator: `str(Path(base) / p1 / ... / pn)`.
An empty base behaves like `Path('')` (the current directory), so the
result is the parts alone, a relative path.  Trailing-separator
normalisation of the base is not modelled; no probe template needs it. -/
def pathJoin (sep : String) (base : String) (parts : List String) : String :=
  parts.foldl (fun acc p => if acc = "" then p else acc ++ sep ++ p) base

/-- Windows join (`\` separator). -/
def joinW (base : String) (parts : List String) : String :=
  pathJoin "\\" base parts

/-- POSIX join (`/` separator). -/
def joinP (base : String) (parts : List String) : String :=
  pathJoin "/" base parts

/-- `get_chrome_paths` from `find_chromium.py`: candidate Chrome
executable locations for the current platform, most-likely-first. -/
def get_chrome_paths (os : OS) (env : Env) (home : String) : List String :=
  match os with
  | .windows =>
    let program_files := envGet env "PROGRAMFILES" "C:\\Program Files"
    let program_files_x86 := envGet env "PROGRAMFILES(X86)" "C:\\Program Files (x86)"
    let local_appdata := envGet env "LOCALAPPDATA" ""
    [ joinW program_files ["Google", "Chrome", "Application", "chrome.exe"],
      joinW program_files_x86 ["Google", "Chrome", "Application", "chrome.exe"],
      joinW local_appdata ["Google", "Chrome", "Application", "chrome.exe"] ]
  | .darwin =>
    [ "/Applications/Google Chrome.app/Contents/MacOS/Google Chrome",
      joinP home ["Applications", "Google Chrome.app", "Contents", "MacOS", "Google Chrome"] ]
  | .linux =>
    [ "/usr/bin/google-chrome",
      "/usr/bin/google-chrome-stable",
      "/usr/bin/chrome",
      "/usr/local/bin/google-chrome",
      "/usr/local/bin/chrome",
      "/opt/google/chrome/chrome",
      "/snap/bin/chromium" ]
  | .other => []

/-- `get_edge_paths` from `find_chromium.py`: candidate Edge
executable locations for the current platform. -/
def get_edge_paths (os : OS) (env : Env) (home : String) : List String :=
  match os with
  | .windows =>
    let program_files := envGet env "PROGRAMFILES" "C:\\Program Files"
    let program_files_x86 := envGet env "PROGRAMFILES(X86)" "C:\\Program Files (x86)"
    [ joinW program_files ["Microsoft", "Edge", "Application", "msedge.exe"],
      joinW program_files_x86 ["Microsoft", "Edge", "Application", "msedge.exe"] ]
  | .darwin =>
    [ "/Applications/Microsoft Edge.app/Contents/MacOS/Microsoft Edge",
      joinP home ["Applications", "Microsoft Edge.app", "Contents", "MacOS", "Microsoft Edge"] ]
  | .linux =>
    [ "/usr/bin/microsoft-edge",
      "/usr/bin/microsoft-edge-stable",
      "/usr/bin/microsoft-edge-beta",
      "/usr/bin/microsoft-edge-dev",
      "/opt/microsoft/msedge/msedge",
      "/snap/bin/microsoft-edge" ]
  | .other => []

/-- The detection test applied to each candidate in `find_chrome` /
`find_edge`: `path.exists() and path.is_file()`. -/
def candidateFound (fs : Fs) (p : String) : Bool :=
  path_exists fs p && path_is_file fs p

/-- `find_chrome`: first Chrome candidate that exists as a regular file. -/
def find_chrome (os : OS) (env : Env) (home : String) (fs : Fs) : Option String :=
  (get_chrome_paths os env home).find? (candidateFound fs)

/-- `find_edge`: first Edge candidate that exists as a regular file. -/
def find_edge (os : OS) (env : Env) (home : String) (fs : Fs) : Option String :=
  (get_edge_paths os env home).find? (candidateFound fs)

/-- `find_system_chromium`: Chrome first, then Edge. -/
def find_system_chromium (os : OS) (env : Env) (home : String) (fs : Fs) : Option String :=
  match find_chrome os env home fs with
  | some chrome_path => some chrome_path
  | none =>
    match find_edge os env home fs with
    | some edge_path => some edge_path
    | none => none

/-- Per-browser slice of the `get_chromium_info` dictionary. -/
structure BrowserInfo where
  available : Bool
  path : Option String
deriving DecidableEq, Repr

/-- The dictionary returned by `get_chromium_info`. -/
structure ChromiumInfo where
  chrome : BrowserInfo
  edge : BrowserInfo
  any_available : Bool
  preferred : Option String
deriving DecidableEq, Repr

/-- `get_chromium_info` from `find_chromium.py`.  It calls only
`find_chrome` and `find_edge`; the installer is not in scope. -/
def get_chromium_info (os : OS) (env : Env) (home : String) (fs : Fs) : ChromiumInfo :=
  let chrome := find_chrome os env home fs
  let edge := find_edge os env home fs
  { chrome := { available := chrome.isSome, path := chrome }
    edge := { available := edge.isSome, path := edge }
    any_available := chrome.isSome || edge.isSome
    preferred :=
      match chrome with
      | some c => some c
      | none =>
        match edge with
        | some e => some e
        | none => none }

/-- `ChromiumNotFoundError` as raised by `get_chromium_install`: the
single outward error kind, with its message and the chained cause
(`raise ... from e`), `none` when raised without a cause. -/
structure ChromiumNotFoundError where
  message : String
  cause : Option String
deriving DecidableEq, Repr

/-- Message of the error raised when `install_chromium` fails. -/
def downloadFailMsg : String :=
  "Failed to download Chromium and no other browser found"

/-- Message of the final no-options-left error. -/
def noOptionsMsg : String :=
  "No Chromium browser found. Either install Chrome/Edge on your system, " ++
  "or allow Chromium download by setting allow_download=True"

/-- The portable installer collaborator (`install_chromium.py`), seen
through the two operations the resolver calls:
`find_existing_chromium(install_dir)` (cache lookup, `None` when no
cached install) and
`install_chromium(install_dir, clean_existing, force_reinstall)`
(returns the installed path, or raises — `Except.error` here). -/
structure Installer where
  find_existing_chromium : Option String → Option String
  install_chromium : Option String → Bool → Bool → Except String String

/-- Observable calls `get_chromium_install` makes to the filesystem
probe and to the installer, in order. -/
inductive Event
  | probeSystem
  | lookupCache (install_dir : Option String)
  | installCall (install_dir : Option String) (clean_existing force_reinstall : Bool)
deriving DecidableEq, Repr

/-- `get_chromium_install` from `get_chromium/__init__.py`: the
three-tier resolver.  Returns the Python function's outcome (path or
raised `ChromiumNotFoundError`) paired with the trace of probe and
installer calls it performed. -/
def get_chromium_install (os : OS) (env : Env) (home : String) (fs : Fs)
    (inst : Installer)
    (allow_system allow_download : Bool)
    (install_dir : Option String) (force_reinstall : Bool) :
    Except ChromiumNotFoundError String × List Event :=
  let step3 : Except ChromiumNotFoundError String × List Event :=
    if allow_download then
      match inst.install_chromium install_dir false force_reinstall with
      | .ok chrome_path =>
        (.ok chrome_path, [.installCall install_dir false force_reinstall])
      | .error e =>
        (.error ⟨downloadFailMsg, some e⟩,
         [.installCall install_dir false force_reinstall])
    else
      (.error ⟨noOptionsMsg, none⟩, [])
  let step2 : Except ChromiumNotFoundError String × List Event :=
    if allow_download && !force_reinstall then
      match inst.find_existing_chromium install_dir with
      | some existing_chrome => (.ok existing_chrome, [.lookupCache install_dir])
      | none => (step3.1, .lookupCache install_dir :: step3.2)
    else step3
  if allow_system then
    match find_system_chromium os env home fs with
    | some system_chrome => (.ok system_chrome, [.probeSystem])
    | none => (step2.1, .probeSystem :: step2.2)
  else step2

/-- A POSIX path string is absolute iff it starts with `/`. -/
def posixAbsolute (s : String) : Bool :=
  match s.data with
  | c :: _ => c == '/'
  | _ => false

/-- A Windows path string is absolute iff it starts with a drive
anchor `X:\` or a UNC anchor `\\` followed by a share name. -/
def windowsAbsolute (s : String) : Bool :=
  match s.data with
  | c1 :: c2 :: c3 :: _ =>
    (c1.isAlpha && (c2 == ':') && (c3 == '\\')) || ((c1 == '\\') && (c2 == '\\'))
  | _ => false

/-- Absoluteness in the path convention of the given platform
(`other` produces no candidates, so any convention serves there). -/
def absoluteFor (os : OS) (s : String) : Bool :=
  match os with
  | .windows => windowsAbsolute s
  | _ => posixAbsolute s

/-- Environment with every variable absent. -/
def envEmpty : Env := fun _ => none

/-- Filesystem with nothing present. -/
def fsEmpty : Fs := fun _ => FsEntry.absent

/-- Host fixture: on Linux, a Chrome at the second candidate location
and an Edge at the first candidate location. -/
def fsChromeEdge : Fs := fun p =>
  if p = "/usr/bin/google-chrome-stable" then FsEntry.file
  else if p = "/usr/bin/microsoft-edge" then FsEntry.file
  else FsEntry.absent

/-- Installer fixture: empty cache, download always fails. -/
def instFail : Installer :=
  { find_existing_chromium := fun _ => none
    install_chromium := fun _ _ _ => .error "network error" }

/-- Installer fixture: a cached install, downloads succeed. -/
def instCached : Installer :=
  { find_existing_chromium := fun _ => some "/cache/chrome-portable/chrome"
    install_chromium := fun _ _ _ => .ok "/fresh/chrome-portable/chrome" }

/-- Recognises the install-operation events of a trace. -/
def isInstallEvent : Event → Bool
  | .installCall _ _ _ => true
  | _ => false

theorem pathJoin_abs_of (isAbs : String → Bool)
    (happ : ∀ a b, isAbs a = true → isAbs (a ++ b) = true)
    (hemp : isAbs "" = false)
    (sep : String) (parts : List String) (base : String)
    (h : isAbs base = true) :
    isAbs (pathJoin sep base parts) = true := by
  induction parts generalizing base with
  | nil => simpa [pathJoin] using h
  | cons p ps ih =>
    have hne : base ≠ "" := by
      intro hb
      rw [hb, hemp] at h
      exact Bool.false_ne_true h
    have : pathJoin sep base (p :: ps) = pathJoin sep (base ++ sep ++ p) ps := by
      simp [pathJoin, hne]
    rw [this]
    exact ih _ (happ _ _ (happ _ _ h))

theorem windowsAbsolute_append (a b : String) (h : windowsAbsolute a = true) :
    windowsAbsolute (a ++ b) = true := by
  unfold windowsAbsolute at h ⊢
  rw [String.data_append]
  match ha : a.data with
  | [] => rw [ha] at h; simp at h
  | [c1] => rw [ha] at h; simp at h
  | [c1, c2] => rw [ha] at h; simp at h
  | c1 :: c2 :: c3 :: rest =>
    rw [ha] at h
    simpa using h

theorem posixAbsolute_append (a b : String) (h : posixAbsolute a = true) :
    posixAbsolute (a ++ b) = true := by
  unfold posixAbsolute at h ⊢
  rw [String.data_append]
  match ha : a.data with
  | [] => rw [ha] at h; simp at h
  | c1 :: rest =>
    rw [ha] at h
    simpa using h

/-- Claim C3: with `allow_system=false` and `allow_download=false`,
for every filesystem, installer, `install_dir` and `force_reinstall`,
`get_chromium_install` fails with the typed no-options
`ChromiumNotFoundError` (no chained cause) and performs zero probe
calls and zero installer calls. -/
theorem get_chromium_install_all_disallowed
    (os : OS) (env : Env) (home : String) (fs : Fs) (inst : Installer)
    (install_dir : Option String) (force_reinstall : Bool) :
    get_chromium_install os env home fs inst false false install_dir force_reinstall =
      (.error ⟨noOptionsMsg, none⟩, []) := rfl

/-- Claim C9: `get_chromium_info` (which never consults the installer:
it is a function of the probe inputs and filesystem alone) reports each
browser's detectability and detected path, reports `any_available` true
iff at least one of the two is detectable, and prefers Chrome's path
when Chrome is detectable, else Edge's, else nothing. -/
theorem get_chromium_info_reports
    (os : OS) (env : Env) (home : String) (fs : Fs) :
    (get_chromium_info os env home fs).chrome.available =
        (find_chrome os env home fs).isSome ∧
    (get_chromium_info os env home fs).chrome.path = find_chrome os env home fs ∧
    (get_chromium_info os env home fs).edge.available =
        (find_edge os env home fs).isSome ∧
    (get_chromium_info os env home fs).edge.path = find_edge os env home fs ∧
    ((get_chromium_info os env home fs).any_available = true ↔
      (find_chrome os env home fs).isSome = true ∨
        (find_edge os env home fs).isSome = true) ∧
    (get_chromium_info os env home fs).preferred =
      (match find_chrome os env home fs with
       | some c => some c
       | none => find_edge os env home fs) := by
  refine ⟨rfl, rfl, rfl, rfl, ?_, ?_⟩
  · simp [get_chromium_info]
  · cases hc : find_chrome os env home fs <;>
      cases he : find_edge os env home fs <;>
      simp [get_chromium_info, hc, he]

/-- Claim C10: with `allow_download=true`, every call either returns a
path or fails with the translated error whose chained cause is the
installer's error; the final no-cause error is never the outcome. -/
theorem get_chromium_install_download_outcomes
    (os : OS) (env : Env) (home : String) (fs : Fs) (inst : Installer)
    (allow_system : Bool) (install_dir : Option String) (force_reinstall : Bool) :
    ((∃ p, (get_chromium_install os env home fs inst allow_system true
        install_dir force_reinstall).1 = .ok p) ∨
     (∃ e, inst.install_chromium install_dir false force_reinstall = .error e ∧
        (get_chromium_install os env home fs inst allow_system true
          install_dir force_reinstall).1 = .error ⟨downloadFailMsg, some e⟩)) ∧
    (get_chromium_install os env home fs inst allow_system true
        install_dir force_reinstall).1 ≠ .error ⟨noOptionsMsg, none⟩ := by
  have key : (∃ p, (get_chromium_install os env home fs inst allow_system true
        install_dir force_reinstall).1 = .ok p) ∨
      (∃ e, inst.install_chromium install_dir false force_reinstall = .error e ∧
        (get_chromium_install os env home fs inst allow_system true
          install_dir force_reinstall).1 = .error ⟨downloadFailMsg, some e⟩) := by
    cases hs : allow_system with
    | true =>
      cases hsys : find_system_chromium os env home fs with
      | some p => exact Or.inl ⟨p, by simp [get_chromium_install, hsys]⟩
      | none =>
        cases hf : force_reinstall with
        | false =>
          cases hc : inst.find_existing_chromium install_dir with
          | some p => exact Or.inl ⟨p, by simp [get_chromium_install, hsys, hc]⟩
          | none =>
            cases hi : inst.install_chromium install_dir false false with
            | ok p => exact Or.inl ⟨p, by simp [get_chromium_install, hsys, hc, hi]⟩
            | error e =>
              exact Or.inr ⟨e, rfl, by simp [get_chromium_install, hsys, hc, hi]⟩
        | true =>
          cases hi : inst.install_chromium install_dir false true with
          | ok p => exact Or.inl ⟨p, by simp [get_chromium_install, hsys, hi]⟩
          | error e =>
            exact Or.inr ⟨e, rfl, by simp [get_chromium_install, hsys, hi]⟩
    | false =>
      cases hf : force_reinstall with
      | false =>
        cases hc : inst.find_existing_chromium install_dir with
        | some p => exact Or.inl ⟨p, by simp [get_chromium_install, hc]⟩
        | none =>
          cases hi : inst.install_chromium install_dir false false with
          | ok p => exact Or.inl ⟨p, by simp [get_chromium_install, hc, hi]⟩
          | error e =>
            exact Or.inr ⟨e, rfl, by simp [get_chromium_install, hc, hi]⟩
      | true =>
        cases hi : inst.install_chromium install_dir false true with
        | ok p => exact Or.inl ⟨p, by simp [get_chromium_install, hi]⟩
        | error e =>
          exact Or.inr ⟨e, rfl, by simp [get_chromium_install, hi]⟩
  refine ⟨key, ?_⟩
  rcases key with ⟨p, hp⟩ | ⟨e, _, hp⟩ <;> rw [hp] <;> simp

/-- Host fixture: a directory occupies the first Linux Chrome
candidate location; a regular file occupies the second. -/
def fsDirAtChrome : Fs := fun p =>
  if p = "/usr/bin/google-chrome" then FsEntry.dir
  else if p = "/usr/bin/google-chrome-stable" then FsEntry.file
  else FsEntry.brokenLink

/-- Environment fixture: every variable set to the drive-anchored
value `C:\X`. -/
def envAbsW : Env := fun _ => some "C:\\X"

/-- Claim C1: when a Chrome candidate and an Edge candidate both exist
as regular files, resolution with `allow_system=true` returns the
first found Chrome candidate (a member of the Chrome candidate list),
and the Edge probe decides the system tier only when no Chrome
candidate is found. -/
theorem get_chromium_install_chrome_over_edge
    (os : OS) (env : Env) (home : String) (fs : Fs) (inst : Installer)
    (allow_download : Bool) (install_dir : Option String) (force_reinstall : Bool)
    (hc : ∃ p ∈ get_chrome_paths os env home, candidateFound fs p = true)
    (he : ∃ p ∈ get_edge_paths os env home, candidateFound fs p = true) :
    ∃ c, find_chrome os env home fs = some c ∧
      c ∈ get_chrome_paths os env home ∧
      (get_chromium_install os env home fs inst true allow_download
        install_dir force_reinstall).1 = .ok c ∧
      ∀ fs2 : Fs, find_chrome os env home fs2 = none →
        find_system_chromium os env home fs2 = find_edge os env home fs2 := by
  obtain ⟨p, hp, hfound⟩ := hc
  have hsome : (find_chrome os env home fs).isSome := by
    rw [find_chrome, List.find?_isSome]
    exact ⟨p, hp, hfound⟩
  obtain ⟨c, hcsome⟩ := Option.isSome_iff_exists.mp hsome
  refine ⟨c, hcsome, List.mem_of_find?_eq_some hcsome, ?_, ?_⟩
  · simp [get_chromium_install, find_system_chromium, hcsome]
  · intro fs2 h2
    cases hedge : find_edge os env home fs2 <;>
      simp [find_system_chromium, h2, hedge]

/-- Closed instance of the C1 theorem: Chrome at the second Linux
candidate, Edge at the first Edge candidate. -/
theorem get_chromium_install_chrome_over_edge_witness :
    ∃ c, find_chrome .linux envEmpty "/root" fsChromeEdge = some c ∧
      c ∈ get_chrome_paths .linux envEmpty "/root" ∧
      (get_chromium_install .linux envEmpty "/root" fsChromeEdge instFail true false
        none false).1 = .ok c ∧
      ∀ fs2 : Fs, find_chrome .linux envEmpty "/root" fs2 = none →
        find_system_chromium .linux envEmpty "/root" fs2 =
          find_edge .linux envEmpty "/root" fs2 :=
  get_chromium_install_chrome_over_edge .linux envEmpty "/root" fsChromeEdge instFail
    false none false
    ⟨"/usr/bin/google-chrome-stable", by decide, by decide⟩
    ⟨"/usr/bin/microsoft-edge", by decide, by decide⟩

/-- Claim C6: with no detectable system browser, `allow_download=true`
and `force_reinstall=false`, resolution returns the cache lookup's
path for the caller's `install_dir` and never calls `install`. -/
theorem get_chromium_install_uses_cache
    (os : OS) (env : Env) (home : String) (fs : Fs) (inst : Installer)
    (allow_system : Bool) (install_dir : Option String) (p : String)
    (hsys : find_system_chromium os env home fs = none)
    (hcache : inst.find_existing_chromium install_dir = some p) :
    (get_chromium_install os env home fs inst allow_system true install_dir false).1 =
      .ok p ∧
    ∀ d ce fr, Event.installCall d ce fr ∉
      (get_chromium_install os env home fs inst allow_system true install_dir false).2 := by
  cases allow_system <;> simp [get_chromium_install, hsys, hcache]

/-- Closed instance of the C6 theorem: empty filesystem, installer
with a cached portable install. -/
theorem get_chromium_install_uses_cache_witness :
    (get_chromium_install .linux envEmpty "/root" fsEmpty instCached true true
        none false).1 = .ok "/cache/chrome-portable/chrome" ∧
    ∀ d ce fr, Event.installCall d ce fr ∉
      (get_chromium_install .linux envEmpty "/root" fsEmpty instCached true true
        none false).2 :=
  get_chromium_install_uses_cache .linux envEmpty "/root" fsEmpty instCached true
    none "/cache/chrome-portable/chrome" rfl rfl

/-- Claim C7: with `allow_download=true` and `force_reinstall=true`,
past the system tier the cache lookup is never consulted and
`install` is invoked exactly once, with the caller's `install_dir`,
`clean_existing=false` and `force_reinstall=true`. -/
theorem get_chromium_install_force_skips_cache
    (os : OS) (env : Env) (home : String) (fs : Fs) (inst : Installer)
    (allow_system : Bool) (install_dir : Option String)
    (hsys : allow_system = true → find_system_chromium os env home fs = none) :
    (∀ d, Event.lookupCache d ∉
      (get_chromium_install os env home fs inst allow_system true install_dir true).2) ∧
    (get_chromium_install os env home fs inst allow_system true
        install_dir true).2.filter isInstallEvent =
      [.installCall install_dir false true] := by
  cases hs : allow_system with
  | true =>
    have h := hsys hs
    cases hi : inst.install_chromium install_dir false true <;>
      simp [get_chromium_install, h, hi, hs, isInstallEvent]
  | false =>
    cases hi : inst.install_chromium install_dir false true <;>
      simp [get_chromium_install, hi, hs, isInstallEvent]

/-- Closed instance of the C7 theorem: empty filesystem, failing
installer, `force_reinstall=true`. -/
theorem get_chromium_install_force_skips_cache_witness :
    (∀ d, Event.lookupCache d ∉
      (get_chromium_install .linux envEmpty "/root" fsEmpty instFail true true
        none true).2) ∧
    (get_chromium_install .linux envEmpty "/root" fsEmpty instFail true true
        none true).2.filter isInstallEvent =
      [.installCall none false true] :=
  get_chromium_install_force_skips_cache .linux envEmpty "/root" fsEmpty instFail true
    none (fun _ => rfl)

/-- Claim C8: a candidate is found iff it resolves to a regular file;
a candidate occupied by a directory (or a broken symlink) is never
found, and detection skips it and proceeds to the next candidate. -/
theorem candidateFound_iff_regular_file
    (fs : Fs) (p : String) (ps : List String)
    (h : fs p ≠ FsEntry.file) :
    (∀ q, candidateFound fs q = true ↔ fs q = FsEntry.file) ∧
    candidateFound fs p = false ∧
    (p :: ps).find? (candidateFound fs) = ps.find? (candidateFound fs) := by
  have hall : ∀ q, candidateFound fs q = true ↔ fs q = FsEntry.file := by
    intro q
    cases hq : fs q <;> simp [candidateFound, path_exists, path_is_file, hq]
  have hfalse : candidateFound fs p = false := by
    cases hq : fs p with
    | file => exact absurd hq h
    | dir => simp [candidateFound, path_exists, path_is_file, hq]
    | absent => simp [candidateFound, path_exists, path_is_file, hq]
    | brokenLink => simp [candidateFound, path_exists, path_is_file, hq]
  refine ⟨hall, hfalse, ?_⟩
  simp [List.find?_cons, hfalse]

/-- Closed instance of the C8 theorem: a directory at the first Linux
Chrome candidate, a regular file at the second. -/
theorem candidateFound_iff_regular_file_witness :
    (∀ q, candidateFound fsDirAtChrome q = true ↔ fsDirAtChrome q = FsEntry.file) ∧
    candidateFound fsDirAtChrome "/usr/bin/google-chrome" = false ∧
    ("/usr/bin/google-chrome" :: ["/usr/bin/google-chrome-stable"]).find?
        (candidateFound fsDirAtChrome) =
      ["/usr/bin/google-chrome-stable"].find? (candidateFound fsDirAtChrome) :=
  candidateFound_iff_regular_file fsDirAtChrome "/usr/bin/google-chrome"
    ["/usr/bin/google-chrome-stable"] (by decide)

/-- Claim C4: when `install_chromium` fails, resolution fails with
`ChromiumNotFoundError` carrying the installer's error as the chained
cause (never re-raised verbatim), and the installer is invoked exactly
once — no tier is retried. -/
theorem get_chromium_install_translates_install_error
    (os : OS) (env : Env) (home : String) (fs : Fs) (inst : Installer)
    (allow_system : Bool) (install_dir : Option String) (force_reinstall : Bool)
    (e : String)
    (hsys : allow_system = true → find_system_chromium os env home fs = none)
    (hcache : force_reinstall = false → inst.find_existing_chromium install_dir = none)
    (hinst : inst.install_chromium install_dir false force_reinstall = .error e) :
    (get_chromium_install os env home fs inst allow_system true install_dir
        force_reinstall).1 = .error ⟨downloadFailMsg, some e⟩ ∧
    (get_chromium_install os env home fs inst allow_system true install_dir
        force_reinstall).2.filter isInstallEvent =
      [.installCall install_dir false force_reinstall] := by
  cases hs : allow_system with
  | true =>
    have h := hsys hs
    cases hf : force_reinstall with
    | true =>
      rw [hf] at hinst
      simp [get_chromium_install, h, hs, hf, hinst, isInstallEvent]
    | false =>
      have hc := hcache hf
      rw [hf] at hinst
      simp [get_chromium_install, h, hs, hf, hc, hinst, isInstallEvent]
  | false =>
    cases hf : force_reinstall with
    | true =>
      rw [hf] at hinst
      simp [get_chromium_install, hs, hf, hinst, isInstallEvent]
    | false =>
      have hc := hcache hf
      rw [hf] at hinst
      simp [get_chromium_install, hs, hf, hc, hinst, isInstallEvent]

/-- Closed instance of the C4 theorem: empty filesystem, empty cache,
download fails with a network error. -/
theorem get_chromium_install_translates_install_error_witness :
    (get_chromium_install .linux envEmpty "/root" fsEmpty instFail true true
        none false).1 = .error ⟨downloadFailMsg, some "network error"⟩ ∧
    (get_chromium_install .linux envEmpty "/root" fsEmpty instFail true true
        none false).2.filter isInstallEvent = [.installCall none false false] :=
  get_chromium_install_translates_install_error .linux envEmpty "/root" fsEmpty
    instFail true none false "network error" (fun _ => rfl) (fun _ => rfl) rfl

/-- Counterexample to claim C2 as stated: with `allow_system=true` and
`allow_download=false` on a host with no browser, the system tier is
attempted (the trace records the probe) and fails, yet the raised
error is identical — same message, no cause — to the one raised when
both flags are false; the message does not differentiate
attempted-and-failed from disallowed. -/
theorem terminal_failure_same_message :
    (get_chromium_install .linux envEmpty "/root" fsEmpty instFail true false
        none false).2 = [Event.probeSystem] ∧
    (get_chromium_install .linux envEmpty "/root" fsEmpty instFail true false
        none false).1 = .error ⟨noOptionsMsg, none⟩ ∧
    (get_chromium_install .linux envEmpty "/root" fsEmpty instFail false false
        none false).1 = .error ⟨noOptionsMsg, none⟩ :=
  ⟨rfl, rfl, rfl⟩

/-- Claim C2 (amended): the download-failure end state and the
all-disallowed end state use the same error kind
(`ChromiumNotFoundError`) with distinct messages; but the final
no-options message is a single fixed string, raised without a cause
both when only the system tier ran and failed (download disallowed)
and when both tiers were disallowed. -/
theorem terminal_failure_messages
    (os : OS) (env : Env) (home : String) (fs : Fs) (inst : Installer)
    (install_dir : Option String) (force_reinstall : Bool) (e : String)
    (hsys : find_system_chromium os env home fs = none)
    (hcache : inst.find_existing_chromium install_dir = none)
    (hinst : inst.install_chromium install_dir false force_reinstall = .error e) :
    (get_chromium_install os env home fs inst true true install_dir
        force_reinstall).1 = .error ⟨downloadFailMsg, some e⟩ ∧
    (get_chromium_install os env home fs inst true false install_dir
        force_reinstall).1 = .error ⟨noOptionsMsg, none⟩ ∧
    (get_chromium_install os env home fs inst false false install_dir
        force_reinstall).1 = .error ⟨noOptionsMsg, none⟩ ∧
    downloadFailMsg ≠ noOptionsMsg := by
  refine ⟨?_, ?_, rfl, by decide⟩
  · cases hf : force_reinstall with
    | true =>
      rw [hf] at hinst
      simp [get_chromium_install, hsys, hf, hinst]
    | false =>
      rw [hf] at hinst
      simp [get_chromium_install, hsys, hf, hcache, hinst]
  · simp [get_chromium_install, hsys]

/-- Closed instance of the amended C2 theorem. -/
theorem terminal_failure_messages_witness :
    (get_chromium_install .linux envEmpty "/root" fsEmpty instFail true true
        none false).1 = .error ⟨downloadFailMsg, some "network error"⟩ ∧
    (get_chromium_install .linux envEmpty "/root" fsEmpty instFail true false
        none false).1 = .error ⟨noOptionsMsg, none⟩ ∧
    (get_chromium_install .linux envEmpty "/root" fsEmpty instFail false false
        none false).1 = .error ⟨noOptionsMsg, none⟩ ∧
    downloadFailMsg ≠ noOptionsMsg :=
  terminal_failure_messages .linux envEmpty "/root" fsEmpty instFail none false
    "network error" rfl rfl rfl

/-- Counterexample to claim C5 as stated: on Windows with
`LOCALAPPDATA` absent, its fallback is the empty string, so the third
Chrome candidate is a relative path. -/
theorem probe_relative_candidate :
    "Google\\Chrome\\Application\\chrome.exe" ∈
      get_chrome_paths .windows envEmpty "/root" ∧
    windowsAbsolute "Google\\Chrome\\Application\\chrome.exe" = false := by
  constructor
  · decide
  · decide

/-- Claim C5 (amended): every probe candidate is absolute provided
each consulted environment variable, when present, holds a
drive-anchored value, `LOCALAPPDATA` is present, and the home
directory is absolute; with `LOCALAPPDATA` absent its fallback is the
empty string and the third Windows Chrome candidate is relative. -/
theorem probe_paths_absolute
    (os : OS) (env : Env) (home : String)
    (henv : ∀ k v, env k = some v → windowsAbsolute v = true)
    (hla : (env "LOCALAPPDATA").isSome = true)
    (hhome : posixAbsolute home = true) :
    ∀ p ∈ get_chrome_paths os env home ++ get_edge_paths os env home,
      absoluteFor os p = true := by
  have habs : ∀ k d, windowsAbsolute d = true →
      windowsAbsolute (envGet env k d) = true := by
    intro k d hd
    unfold envGet
    cases hk : env k with
    | none => simpa using hd
    | some v => simpa using henv k v hk
  have hjoinW : ∀ base parts, windowsAbsolute base = true →
      windowsAbsolute (joinW base parts) = true := fun base parts hb =>
    pathJoin_abs_of windowsAbsolute windowsAbsolute_append (by decide) "\\" parts base hb
  have hjoinP : ∀ base parts, posixAbsolute base = true →
      posixAbsolute (joinP base parts) = true := fun base parts hb =>
    pathJoin_abs_of posixAbsolute posixAbsolute_append (by decide) "/" parts base hb
  intro p hp
  cases os with
  | windows =>
    obtain ⟨v, hv⟩ := Option.isSome_iff_exists.mp hla
    have hla2 : windowsAbsolute (envGet env "LOCALAPPDATA" "") = true := by
      unfold envGet
      rw [hv]
      simpa using henv _ _ hv
    simp only [get_chrome_paths, get_edge_paths, List.mem_append, List.mem_cons,
      List.mem_singleton, List.not_mem_nil, or_false] at hp
    rcases hp with (h | h | h) | (h | h) <;> subst h <;>
      first
        | exact hjoinW _ _ (habs _ _ (by decide))
        | exact hjoinW _ _ hla2
  | darwin =>
    simp only [get_chrome_paths, get_edge_paths, List.mem_append, List.mem_cons,
      List.mem_singleton, List.not_mem_nil, or_false] at hp
    rcases hp with (h | h) | (h | h) <;> subst h <;>
      first
        | decide
        | exact hjoinP _ _ hhome
  | linux =>
    simp only [get_chrome_paths, get_edge_paths, List.mem_append, List.mem_cons,
      List.mem_singleton, List.not_mem_nil, or_false] at hp
    rcases hp with (h|h|h|h|h|h|h) | (h|h|h|h|h|h) <;> subst h <;> decide
  | other =>
    simp [get_chrome_paths, get_edge_paths] at hp

/-- Closed instance of the amended C5 theorem: with every environment
variable set to `C:\X`, the first Windows Chrome candidate is
absolute. -/
theorem probe_paths_absolute_witness :
    absoluteFor .windows "C:\\X\\Google\\Chrome\\Application\\chrome.exe" = true :=
  probe_paths_absolute .windows envAbsW "/home/user"
    (fun k v hv => by
      have : v = "C:\\X" := (Option.some.injEq _ _ ▸ hv :).symm
      rw [this]
      decide)
    rfl rfl
    "C:\\X\\Google\\Chrome\\Application\\chrome.exe" (by decide)

/-- Closed instance of the C3 theorem. -/
theorem get_chromium_install_all_disallowed_witness :
    get_chromium_install .linux envEmpty "/root" fsEmpty instFail false false
        none false = (.error ⟨noOptionsMsg, none⟩, []) :=
  get_chromium_install_all_disallowed .linux envEmpty "/root" fsEmpty instFail
    none false

/-- Closed instance of the C9 theorem on the two-browser host fixture. -/
theorem get_chromium_info_reports_witness :
    (get_chromium_info .linux envEmpty "/root" fsChromeEdge).chrome.available =
        (find_chrome .linux envEmpty "/root" fsChromeEdge).isSome ∧
    (get_chromium_info .linux envEmpty "/root" fsChromeEdge).chrome.path =
        find_chrome .linux envEmpty "/root" fsChromeEdge ∧
    (get_chromium_info .linux envEmpty "/root" fsChromeEdge).edge.available =
        (find_edge .linux envEmpty "/root" fsChromeEdge).isSome ∧
    (get_chromium_info .linux envEmpty "/root" fsChromeEdge).edge.path =
        find_edge .linux envEmpty "/root" fsChromeEdge ∧
    ((get_chromium_info .linux envEmpty "/root" fsChromeEdge).any_available = true ↔
      (find_chrome .linux envEmpty "/root" fsChromeEdge).isSome = true ∨
        (find_edge .linux envEmpty "/root" fsChromeEdge).isSome = true) ∧
    (get_chromium_info .linux envEmpty "/root" fsChromeEdge).preferred =
      (match find_chrome .linux envEmpty "/root" fsChromeEdge with
       | some c => some c
       | none => find_edge .linux envEmpty "/root" fsChromeEdge) :=
  get_chromium_info_reports .linux envEmpty "/root" fsChromeEdge

/-- Closed instance of the C10 theorem on a failing installer. -/
theorem get_chromium_install_download_outcomes_witness :
    ((∃ p, (get_chromium_install .linux envEmpty "/root" fsEmpty instFail false true
        none false).1 = .ok p) ∨
     (∃ e, instFail.install_chromium none false false = .error e ∧
        (get_chromium_install .linux envEmpty "/root" fsEmpty instFail false true
          none false).1 = .error ⟨downloadFailMsg, some e⟩)) ∧
    (get_chromium_install .linux envEmpty "/root" fsEmpty instFail false true
        none false).1 ≠ .error ⟨noOptionsMsg, none⟩ :=
  get_chromium_install_download_outcomes .linux envEmpty "/root" fsEmpty instFail
    false none false

end PwaLauncher
